import Mathlib

/-!
Verification of the AWS Lambda instrumentation decorator
(`opentelemetry/instrumentation/aws_lambda/__init__.py`).

The module is a thin wrapper over an external tracing library:
it resolves a parent trace context from two carriers (the
`_X_AMZN_TRACE_ID` environment variable via the X-Ray format, and the
`"headers"` field of the invocation event via the globally configured
text-map format), opens a SERVER span around the user handler, tags it
with FaaS attributes, and force-flushes the tracer provider after the
handler returns.

Shallow embedding conventions:
* Dynamically typed values reaching the wrapper (the event in `args[0]`
  and the context in `args[1]`) are modelled by `PyVal`; subscripting
  and attribute access are fallible, returning `Except PyErr`.
* The external tracing library (the two propagation codecs, the
  truthiness of a `Context` object, and the sampling flag of the
  current span of a context) is a black box, modelled by the record
  `OtelEnv` of uninterpreted functions over an abstract context type.
* Effects of one invocation (span start/end, `set_attribute` calls,
  the handler call, `force_flush`, debug logging) are collected into an
  explicit event list, so claims about call counts and ordering become
  statements about that list.
-/

namespace OtelLambda

/-- Exceptions of the source language that the embedded code can raise
or catch. `userError ty msg` stands for an arbitrary exception raised by
the user handler, carrying its type name and message. -/
inductive PyErr where
  | indexError
  | keyError
  | typeError
  | attributeError
  | valueError
  | userError (ty : String) (msg : String)
deriving DecidableEq, Repr

/-- A string-to-string mapping used as a propagation carrier. -/
abbrev Headers := List (String × String)

/-- Dynamically typed values handed to the wrapper: a subscriptable
mapping (the API-Gateway style event, whose `"headers"` entry, when
present, is a header mapping), a Lambda context object exposing the
`aws_request_id` and `invoked_function_arn` attributes (each possibly
absent, modelling an object that lacks the attribute), or an object that
is neither subscriptable nor exposes those attributes. -/
inductive PyVal where
  | dict (entries : List (String × Headers))
  | lambdaCtx (aws_request_id : Option String) (invoked_function_arn : Option String)
  | nonMapping
deriving DecidableEq, Repr

/-- Subscript access `v[k]`, as used by `lambda_event["headers"]`:
a missing key in a mapping raises `KeyError`, subscripting a
non-subscriptable object raises `TypeError`. -/
def eventSubscript (v : PyVal) (k : String) : Except PyErr Headers :=
  match v with
  | .dict entries =>
      match entries.lookup k with
      | some h => .ok h
      | none => .error .keyError
  | _ => .error .typeError

/-- Attribute access `ctx.aws_request_id`: raises `AttributeError` when
the object does not expose the attribute. -/
def getattrRequestId : PyVal → Except PyErr String
  | .lambdaCtx (some r) _ => .ok r
  | _ => .error .attributeError

/-- Attribute access `ctx.invoked_function_arn`: raises `AttributeError`
when the object does not expose the attribute. -/
def getattrFunctionArn : PyVal → Except PyErr String
  | .lambdaCtx _ (some a) => .ok a
  | _ => .error .attributeError

/-- The external tracing library, as a black box over an abstract
context type `Ctx`:
* `xrayExtract` is `AwsXRayFormat().extract` on a carrier;
* `textmapExtract` is `get_global_textmap().extract` on a carrier;
* `ctxTruthy` is the truthiness of the returned `Context` object (a
  mapping: empty means falsy), used by `if parent_context and ...`;
* `currentSpanSampled` is
  `get_current_span(ctx).get_span_context().trace_flags.sampled`. -/
structure OtelEnv (Ctx : Type) where
  xrayExtract : Headers → Ctx
  textmapExtract : Headers → Ctx
  ctxTruthy : Ctx → Bool
  currentSpanSampled : Ctx → Bool

/-- The fixed carrier key of the X-Ray propagation format
(`TRACE_HEADER_KEY` from the aws extension package). -/
def TRACE_HEADER_KEY : String := "X-Amzn-Trace-Id"

/-- Log records emitted by the embedded code; only a debug-level
diagnostic occurs. -/
inductive LogRec where
  | debug
deriving DecidableEq, Repr

/-- Embedding of `_default_event_context_extractor`: read
`lambda_event["headers"]`; on `TypeError` or `KeyError` (the only
exceptions the subscript model raises, and exactly the two the source
catches) log a debug diagnostic and fall back to an empty mapping; then
extract a context from the headers with the global text-map format.
The function is total: no exception escapes to the caller. -/
def _default_event_context_extractor {Ctx : Type} (O : OtelEnv Ctx)
    (lambda_event : PyVal) : Ctx × List LogRec :=
  match eventSubscript lambda_event "headers" with
  | .ok headers => (O.textmapExtract headers, [])
  | .error _ => (O.textmapExtract ([] : Headers), [.debug])

/-- Embedding of `_determine_parent_context`: if `_X_AMZN_TRACE_ID` is
set to a non-empty string (the truthiness test `if xray_env_var:`),
extract a context from the one-entry X-Ray carrier; if that context is
truthy and its current span is sampled, return it; otherwise fall back
to the default event extractor. -/
def _determine_parent_context {Ctx : Type} (O : OtelEnv Ctx)
    (env : String → Option String) (lambda_event : PyVal) : Ctx × List LogRec :=
  match env "_X_AMZN_TRACE_ID" with
  | some xray_env_var =>
      if xray_env_var = "" then
        _default_event_context_extractor O lambda_event
      else
        let parent_context := O.xrayExtract [(TRACE_HEADER_KEY, xray_env_var)]
        if O.ctxTruthy parent_context && O.currentSpanSampled parent_context then
          (parent_context, [])
        else
          _default_event_context_extractor O lambda_event
  | none => _default_event_context_extractor O lambda_event

/-- The headers the default extractor ends up handing to the text-map
format: the event entry when present, the empty mapping otherwise. -/
def headersOrEmpty (lambda_event : PyVal) : Headers :=
  match eventSubscript lambda_event "headers" with
  | .ok headers => headers
  | .error _ => []

/-- Validity of the tail of an integer literal in the source language:
digits possibly separated by single underscores (an underscore must be
followed by a digit). -/
def digitGroupOk : List Char → Bool
  | [] => true
  | '_' :: c :: rest => c.isDigit && digitGroupOk rest
  | c :: rest => c.isDigit && digitGroupOk rest

/-- Validity of a full digit sequence: non-empty, starts with a digit,
then `digitGroupOk`. -/
def digitsOk : List Char → Bool
  | [] => false
  | c :: rest => c.isDigit && digitGroupOk rest

/-- Numeric value of a digit sequence, skipping underscores. -/
def natOfDigits (cs : List Char) : Nat :=
  cs.foldl (fun acc c => if c = '_' then acc else acc * 10 + (c.toNat - '0'.toNat)) 0

/-- ASCII whitespace stripped by the builtin `int` before parsing. -/
def isPySpace (c : Char) : Bool :=
  c = ' ' || c = '\t' || c = '\n' || c = '\r' || c = '\x0b' || c = '\x0c'

/-- Strip leading and trailing whitespace from a character list. -/
def pyStrip (cs : List Char) : List Char :=
  ((cs.dropWhile isPySpace).reverse.dropWhile isPySpace).reverse

/-- Embedding of the builtin `int(s)` on a string argument (base 10):
strip surrounding whitespace, allow one optional sign, then a digit
sequence with optional single underscores; anything else raises
`ValueError`. -/
def pyIntOfString (s : String) : Except PyErr Int :=
  match pyStrip s.toList with
  | '+' :: rest => if digitsOk rest then .ok ((natOfDigits rest : Nat) : Int) else .error .valueError
  | '-' :: rest => if digitsOk rest then .ok (-((natOfDigits rest : Nat) : Int)) else .error .valueError
  | cs => if digitsOk cs then .ok ((natOfDigits cs : Nat) : Int) else .error .valueError

/-- Embedding of the module-load computation
`flush_timeout = int(os.environ.get("OTEL_INSTRUMENTATION_AWS_LAMBDA_FLUSH_TIMEOUT", 30000))`:
when the variable is unset, `os.environ.get` returns the default `30000`
(already an integer, so `int` is the identity on it); when it is set,
`int` parses the string and raises `ValueError` on failure, which makes
the module fail to load. -/
def flush_timeout_init (env : String → Option String) : Except PyErr Int :=
  match env "OTEL_INSTRUMENTATION_AWS_LAMBDA_FLUSH_TIMEOUT" with
  | none => .ok 30000
  | some s => pyIntOfString s

/-- The span kinds of the tracing API; the wrapper only ever uses
`server`. -/
inductive SpanKind where
  | server
  | client
  | internal
deriving DecidableEq, Repr

/-- A value passed to `span.set_attribute`: either a string or the
source-language `None` (which `os.environ.get` returns for an unset
variable when no default is given). -/
inductive AttrVal where
  | str (s : String)
  | pynone
deriving DecidableEq, Repr

/-- Whether an attribute value is a string. -/
def AttrVal.isString : AttrVal → Bool
  | .str _ => true
  | .pynone => false

/-- Conversion of an `os.environ.get(name)` result (no default) into the
value handed to `set_attribute`. -/
def attrOfEnv : Option String → AttrVal
  | some s => .str s
  | none => .pynone

/-- Observable effects of one invocation of the decorated handler, in
program order. `Ctx` is the abstract trace-context type and `K` the type
of the keyword-argument record, passed through opaquely. -/
inductive TEvent (Ctx K : Type) where
  | debugLog
  | spanStart (name : String) (parent : Ctx) (kind : SpanKind)
  | setAttr (key : String) (value : AttrVal)
  | handlerCall (args : List PyVal) (kwargs : K)
  | spanEnd
  | flushCall (timeout : Int)
deriving DecidableEq

/-- The call-time state an invocation of `otel_wrapper` runs against:
the black-box tracing library, the process environment, whether the
created span reports `is_recording()`, the wrapped handler (returning a
value or raising), the `__module__` and `__name__` attributes of the
handler object as they read when the wrapper runs, and the module-level
`flush_timeout` value computed at load time. -/
structure WrapEnv (Ctx K Res : Type) where
  otel : OtelEnv Ctx
  env : String → Option String
  recording : Bool
  handler : List PyVal → K → Except PyErr Res
  module : String
  handlerName : String
  flush_timeout : Int

/-- Body of the `with tracer.start_as_current_span(...)` block: when the
span is recording, read `args[1]`, then set the four FaaS attributes
(reading `aws_request_id` at the first call and `invoked_function_arn`
at the second, so a failed attribute read aborts mid-sequence), then
call the handler; when not recording, call the handler directly. The
returned list holds the events of the block body, and the `Except` its
outcome (the handler result, or the exception that aborted the body). -/
def spanBody {Ctx K Res : Type} (W : WrapEnv Ctx K Res)
    (args : List PyVal) (kwargs : K) :
    Except PyErr Res × List (TEvent Ctx K) :=
  if W.recording then
    match args[1]? with
    | none => (.error .indexError, [])
    | some lambda_context =>
        match getattrRequestId lambda_context with
        | .error e => (.error e, [])
        | .ok rid =>
            match getattrFunctionArn lambda_context with
            | .error e => (.error e, [.setAttr "faas.execution" (.str rid)])
            | .ok arn =>
                (W.handler args kwargs,
                 [.setAttr "faas.execution" (.str rid),
                  .setAttr "faas.id" (.str arn),
                  .setAttr "faas.name" (attrOfEnv (W.env "AWS_LAMBDA_FUNCTION_NAME")),
                  .setAttr "faas.version" (attrOfEnv (W.env "AWS_LAMBDA_FUNCTION_VERSION")),
                  .handlerCall args kwargs])
  else
    (W.handler args kwargs, [.handlerCall args kwargs])

/-- Embedding of `otel_wrapper`, the closure returned by `otel_handler`.
In program order: compute `orig_handler_name` from the handler object's
current attributes (this happens inside the closure, on every call);
read `args[0]` (an `IndexError` here propagates before any span
exists); resolve the parent context; enter the span scope (the span is
started, the block body runs, and the span is ended on both the normal
and the exceptional exit of the block); if the body raised, propagate
the exception with no flush; otherwise force-flush the tracer provider
with the module-level timeout and return the handler result. -/
def otel_wrapper {Ctx K Res : Type} (W : WrapEnv Ctx K Res)
    (args : List PyVal) (kwargs : K) :
    Except PyErr Res × List (TEvent Ctx K) :=
  let orig_handler_name := W.module ++ "." ++ W.handlerName
  match args[0]? with
  | none => (.error .indexError, [])
  | some lambda_event =>
      let pc := _determine_parent_context W.otel W.env lambda_event
      let body := spanBody W args kwargs
      let spanScopeEvents : List (TEvent Ctx K) :=
        pc.2.map (fun _ => .debugLog) ++
          (.spanStart orig_handler_name pc.1 .server :: body.2 ++ [.spanEnd])
      match body.1 with
      | .error e => (.error e, spanScopeEvents)
      | .ok result => (.ok result, spanScopeEvents ++ [.flushCall W.flush_timeout])

/-- Whether an event is a `force_flush` call. -/
def isFlush {Ctx K : Type} : TEvent Ctx K → Bool
  | .flushCall _ => true
  | _ => false

/-- Whether an event is a `set_attribute` call. -/
def isSetAttr {Ctx K : Type} : TEvent Ctx K → Bool
  | .setAttr _ _ => true
  | _ => false

/-- Whether an event is the call of the wrapped handler. -/
def isHandlerCall {Ctx K : Type} : TEvent Ctx K → Bool
  | .handlerCall _ _ => true
  | _ => false

/-- The name carried by the first span-start event of an event list. -/
def spanNameOf {Ctx K : Type} (evs : List (TEvent Ctx K)) : Option String :=
  evs.findSome? fun ev =>
    match ev with
    | .spanStart n _ _ => some n
    | _ => none

/-- Decidable equality of `Except` results, used to evaluate concrete
runs of the embedded code. -/
instance {ε α : Type} [DecidableEq ε] [DecidableEq α] : DecidableEq (Except ε α) :=
  fun a b =>
    match a, b with
    | .ok x, .ok y =>
        if h : x = y then .isTrue (by rw [h]) else .isFalse (by intro hc; cases hc; exact h rfl)
    | .error x, .error y =>
        if h : x = y then .isTrue (by rw [h]) else .isFalse (by intro hc; cases hc; exact h rfl)
    | .ok _, .error _ => .isFalse (by intro hc; cases hc)
    | .error _, .ok _ => .isFalse (by intro hc; cases hc)

/-- A concrete instantiation of the black-box tracing library over
`Ctx := Bool`: the X-Ray codec always yields the context `true`, the
text-map codec yields `true` exactly on a non-empty carrier, and a
context is truthy and sampled exactly when it is `true`. -/
def obool : OtelEnv Bool where
  xrayExtract := fun _ => true
  textmapExtract := fun h => decide (h ≠ [])
  ctxTruthy := fun c => c
  currentSpanSampled := fun c => c

/-- An environment holding a sampled X-Ray trace header and nothing
else. -/
def envSampled : String → Option String :=
  fun k =>
    if k = "_X_AMZN_TRACE_ID" then
      some "Root=1-5759e988-bd862e3fe1be46a994272793;Parent=53995c3f42cd8ad8;Sampled=1"
    else none

/-- An empty process environment. -/
def envNone : String → Option String := fun _ => none

/-- An environment whose flush-timeout variable is not an integer
literal. -/
def envUnparseable : String → Option String :=
  fun k =>
    if k = "OTEL_INSTRUMENTATION_AWS_LAMBDA_FLUSH_TIMEOUT" then some "abc" else none

/-- An environment whose flush-timeout variable is `"5000"`. -/
def envFive : String → Option String :=
  fun k =>
    if k = "OTEL_INSTRUMENTATION_AWS_LAMBDA_FLUSH_TIMEOUT" then some "5000" else none

/-- A Lambda context object exposing both expected attributes. -/
def goodCtx : PyVal := .lambdaCtx (some "req-1") (some "arn:aws:lambda:us-east-1:0:function:f")

/-- A context object exposing neither expected attribute. -/
def badCtx : PyVal := .lambdaCtx none none

/-- An API-Gateway style event with a `"headers"` mapping. -/
def headerEvent : PyVal := .dict [("headers", [("traceparent", "00-ab-cd-01")])]

/-- A concrete call-time state: recording span, empty environment, a
handler returning `42`, module `mymod`, name `f`, timeout `30000`. -/
def Wbase : WrapEnv Bool Unit Nat where
  otel := obool
  env := envNone
  recording := true
  handler := fun _ _ => .ok 42
  module := "mymod"
  handlerName := "f"
  flush_timeout := 30000

/-- Same state as `Wbase` but the handler raises. -/
def Wraise : WrapEnv Bool Unit Nat :=
  { Wbase with handler := fun _ _ => .error (.userError "RuntimeError" "boom") }

/-- Same state as `Wbase` but the span is not recording. -/
def Wnorec : WrapEnv Bool Unit Nat := { Wbase with recording := false }

/-- Same state as `Wbase` after the `__name__` attribute of the handler
object has been rebound to `"g"` between decoration and the call. -/
def Wg : WrapEnv Bool Unit Nat := { Wbase with handlerName := "g" }

end OtelLambda

namespace OtelLambda

/-! Helper lemmas about the event list. -/

/-- Filtering a debug-log prefix with any predicate that rejects debug
logs yields nothing. -/
theorem filter_debug_map {Ctx K : Type} (p : TEvent Ctx K → Bool)
    (hp : p .debugLog = false) (logs : List LogRec) :
    (logs.map fun _ => (.debugLog : TEvent Ctx K)).filter p = [] := by
  induction logs with
  | nil => rfl
  | cons a t ih => simp only [List.map_cons, List.filter_cons, hp]; exact ih

/-- A predicate that accepts debug logs lets `takeWhile` pass over a
debug-log prefix. -/
theorem takeWhile_debug_map {Ctx K : Type} (p : TEvent Ctx K → Bool)
    (hp : p .debugLog = true) (logs : List LogRec) (l : List (TEvent Ctx K)) :
    ((logs.map fun _ => (.debugLog : TEvent Ctx K)) ++ l).takeWhile p
      = (logs.map fun _ => (.debugLog : TEvent Ctx K)) ++ l.takeWhile p := by
  induction logs with
  | nil => rfl
  | cons a t ih =>
      simp only [List.map_cons, List.cons_append, List.takeWhile_cons, hp, if_true]
      exact congrArg _ ih

/-- A predicate that accepts debug logs lets `dropWhile` skip a
debug-log prefix. -/
theorem dropWhile_debug_map {Ctx K : Type} (p : TEvent Ctx K → Bool)
    (hp : p .debugLog = true) (logs : List LogRec) (l : List (TEvent Ctx K)) :
    ((logs.map fun _ => (.debugLog : TEvent Ctx K)) ++ l).dropWhile p = l.dropWhile p := by
  induction logs with
  | nil => rfl
  | cons a t ih =>
      simp only [List.map_cons, List.cons_append, List.dropWhile_cons, hp, if_true]
      exact ih

/-- Looking for a span name skips a debug-log prefix. -/
theorem spanNameOf_debug_map {Ctx K : Type} (logs : List LogRec) (l : List (TEvent Ctx K)) :
    spanNameOf ((logs.map fun _ => (.debugLog : TEvent Ctx K)) ++ l) = spanNameOf l := by
  induction logs with
  | nil => rfl
  | cons a t ih => simpa [spanNameOf] using ih

/-- The context component of the default extractor is the text-map
extraction of the event headers (empty headers when the lookup fails). -/
theorem default_extractor_fst {Ctx : Type} (O : OtelEnv Ctx) (lambda_event : PyVal) :
    (_default_event_context_extractor O lambda_event).1
      = O.textmapExtract (headersOrEmpty lambda_event) := by
  unfold _default_event_context_extractor headersOrEmpty
  cases h : eventSubscript lambda_event "headers" <;> simp

/-! Evaluation lemmas for `spanBody`, one per control path. -/

/-- With a non-recording span, the body just calls the handler. -/
theorem spanBody_not_recording {Ctx K Res : Type} (W : WrapEnv Ctx K Res)
    (args : List PyVal) (kwargs : K) (hrec : W.recording = false) :
    spanBody W args kwargs = (W.handler args kwargs, [.handlerCall args kwargs]) := by
  unfold spanBody
  simp [hrec]

/-- With a recording span and no second positional argument, reading
`args[1]` raises `IndexError` before anything else in the body. -/
theorem spanBody_no_ctx_arg {Ctx K Res : Type} (W : WrapEnv Ctx K Res)
    (args : List PyVal) (kwargs : K)
    (hrec : W.recording = true) (h1 : args[1]? = none) :
    spanBody W args kwargs = (.error .indexError, []) := by
  unfold spanBody
  simp [hrec, h1]

/-- With a recording span and a context lacking `aws_request_id`, the
first attribute read raises before any `set_attribute` call. -/
theorem spanBody_no_request_id {Ctx K Res : Type} (W : WrapEnv Ctx K Res)
    (args : List PyVal) (kwargs : K) (c : PyVal) (e : PyErr)
    (hrec : W.recording = true) (h1 : args[1]? = some c)
    (h2 : getattrRequestId c = .error e) :
    spanBody W args kwargs = (.error e, []) := by
  unfold spanBody
  simp [hrec, h1, h2]

/-- With a recording span and a context lacking `invoked_function_arn`,
the second attribute read raises after exactly one `set_attribute`
call. -/
theorem spanBody_no_arn {Ctx K Res : Type} (W : WrapEnv Ctx K Res)
    (args : List PyVal) (kwargs : K) (c : PyVal) (rid : String) (e : PyErr)
    (hrec : W.recording = true) (h1 : args[1]? = some c)
    (h2 : getattrRequestId c = .ok rid) (h3 : getattrFunctionArn c = .error e) :
    spanBody W args kwargs = (.error e, [.setAttr "faas.execution" (.str rid)]) := by
  unfold spanBody
  simp [hrec, h1, h2, h3]

/-- With a recording span and a well-formed context, the body makes the
four attribute-setting calls and then calls the handler. -/
theorem spanBody_recording {Ctx K Res : Type} (W : WrapEnv Ctx K Res)
    (args : List PyVal) (kwargs : K) (c : PyVal) (rid arn : String)
    (hrec : W.recording = true) (h1 : args[1]? = some c)
    (h2 : getattrRequestId c = .ok rid) (h3 : getattrFunctionArn c = .ok arn) :
    spanBody W args kwargs =
      (W.handler args kwargs,
       [.setAttr "faas.execution" (.str rid),
        .setAttr "faas.id" (.str arn),
        .setAttr "faas.name" (attrOfEnv (W.env "AWS_LAMBDA_FUNCTION_NAME")),
        .setAttr "faas.version" (attrOfEnv (W.env "AWS_LAMBDA_FUNCTION_VERSION")),
        .handlerCall args kwargs]) := by
  unfold spanBody
  simp [hrec, h1, h2, h3]

/-! Evaluation lemmas for `otel_wrapper`, one per control path. -/

/-- With no positional argument, reading `args[0]` raises `IndexError`
before the parent context is resolved and before any span exists. -/
theorem otel_wrapper_no_event_arg {Ctx K Res : Type} (W : WrapEnv Ctx K Res)
    (args : List PyVal) (kwargs : K) (h0 : args[0]? = none) :
    otel_wrapper W args kwargs = (.error .indexError, []) := by
  unfold otel_wrapper
  simp [h0]

/-- When the span-scope body raises, the span is still ended, the
exception propagates, and no flush happens. -/
theorem otel_wrapper_body_error {Ctx K Res : Type} (W : WrapEnv Ctx K Res)
    (args : List PyVal) (kwargs : K) (ev : PyVal) (e : PyErr)
    (bodyEvents : List (TEvent Ctx K))
    (h0 : args[0]? = some ev) (hb : spanBody W args kwargs = (.error e, bodyEvents)) :
    otel_wrapper W args kwargs =
      (.error e,
       (_determine_parent_context W.otel W.env ev).2.map (fun _ => .debugLog) ++
         (.spanStart (W.module ++ "." ++ W.handlerName)
            (_determine_parent_context W.otel W.env ev).1 .server ::
           bodyEvents ++ [.spanEnd])) := by
  unfold otel_wrapper
  simp [h0, hb]

/-- When the span-scope body returns a handler result, the span is
ended and the tracer provider is flushed with the module-level
timeout. -/
theorem otel_wrapper_body_ok {Ctx K Res : Type} (W : WrapEnv Ctx K Res)
    (args : List PyVal) (kwargs : K) (ev : PyVal) (r : Res)
    (bodyEvents : List (TEvent Ctx K))
    (h0 : args[0]? = some ev) (hb : spanBody W args kwargs = (.ok r, bodyEvents)) :
    otel_wrapper W args kwargs =
      (.ok r,
       (_determine_parent_context W.otel W.env ev).2.map (fun _ => .debugLog) ++
         (.spanStart (W.module ++ "." ++ W.handlerName)
            (_determine_parent_context W.otel W.env ev).1 .server ::
           bodyEvents ++ [.spanEnd]) ++
         [.flushCall W.flush_timeout]) := by
  unfold otel_wrapper
  simp [h0, hb]

/-- The span-scope body never calls `force_flush`. -/
theorem spanBody_no_flush {Ctx K Res : Type} (W : WrapEnv Ctx K Res)
    (args : List PyVal) (kwargs : K) :
    (spanBody W args kwargs).2.filter isFlush = [] := by
  cases hrec : W.recording with
  | false => rw [spanBody_not_recording W args kwargs hrec]; rfl
  | true =>
      cases h1 : args[1]? with
      | none => rw [spanBody_no_ctx_arg W args kwargs hrec h1]; rfl
      | some c =>
          cases h2 : getattrRequestId c with
          | error e => rw [spanBody_no_request_id W args kwargs c e hrec h1 h2]; rfl
          | ok rid =>
              cases h3 : getattrFunctionArn c with
              | error e => rw [spanBody_no_arn W args kwargs c rid e hrec h1 h2 h3]; rfl
              | ok arn => rw [spanBody_recording W args kwargs c rid arn hrec h1 h2 h3]; rfl

/-- When the span-scope body completes with a handler result, the
handler-call event is among the body events. -/
theorem spanBody_ok_handler_called {Ctx K Res : Type} (W : WrapEnv Ctx K Res)
    (args : List PyVal) (kwargs : K) (r : Res) (bevs : List (TEvent Ctx K))
    (h : spanBody W args kwargs = (.ok r, bevs)) :
    TEvent.handlerCall args kwargs ∈ bevs := by
  cases hrec : W.recording with
  | false =>
      rw [spanBody_not_recording W args kwargs hrec, Prod.mk.injEq] at h
      rw [← h.2]
      simp
  | true =>
      cases h1 : args[1]? with
      | none => rw [spanBody_no_ctx_arg W args kwargs hrec h1] at h; simp at h
      | some c =>
          cases h2 : getattrRequestId c with
          | error e => rw [spanBody_no_request_id W args kwargs c e hrec h1 h2] at h; simp at h
          | ok rid =>
              cases h3 : getattrFunctionArn c with
              | error e =>
                  rw [spanBody_no_arn W args kwargs c rid e hrec h1 h2 h3] at h
                  simp at h
              | ok arn =>
                  rw [spanBody_recording W args kwargs c rid arn hrec h1 h2 h3,
                    Prod.mk.injEq] at h
                  rw [← h.2]
                  simp

/-- When the body result is the handler result and the body events hold
the handler-call event, the wrapper passes the handler outcome through
unchanged on both the return and the raise path. -/
theorem wrapper_passthrough_aux {Ctx K Res : Type} (W : WrapEnv Ctx K Res)
    (args : List PyVal) (kwargs : K) (ev : PyVal) (bevs : List (TEvent Ctx K))
    (h0 : args[0]? = some ev)
    (hb : spanBody W args kwargs = (W.handler args kwargs, bevs))
    (hm : TEvent.handlerCall args kwargs ∈ bevs) :
    (otel_wrapper W args kwargs).1 = W.handler args kwargs ∧
    TEvent.handlerCall args kwargs ∈ (otel_wrapper W args kwargs).2 := by
  cases hh : W.handler args kwargs with
  | ok r =>
      rw [hh] at hb
      rw [otel_wrapper_body_ok W args kwargs ev r bevs h0 hb]
      exact ⟨rfl, by simp [hm]⟩
  | error e =>
      rw [hh] at hb
      rw [otel_wrapper_body_error W args kwargs ev e bevs h0 hb]
      exact ⟨rfl, by simp [hm]⟩

/-! Claim theorems. -/

/-- C1: the resolved parent context follows the sampled-wins-first
rule. If `_X_AMZN_TRACE_ID` is set to a non-empty string and the
context extracted from it via the X-Ray format has a sampled current
span, the resolved parent is that X-Ray context, whatever the event
holds; otherwise the resolved parent is the text-map extraction of the
event's `"headers"` mapping (the empty mapping when the event lacks
one). The hypothesis `hmono` records a fact about the external library:
a context whose current span is sampled is a non-empty mapping, hence
truthy (an empty context has no current-span entry, so its current span
is the invalid span, which is not sampled). -/
theorem parent_context_sampled_wins {Ctx : Type} (O : OtelEnv Ctx)
    (env : String → Option String) (lambda_event : PyVal)
    (hmono : ∀ c, O.currentSpanSampled c = true → O.ctxTruthy c = true) :
    (∀ s, env "_X_AMZN_TRACE_ID" = some s → s ≠ "" →
        O.currentSpanSampled (O.xrayExtract [(TRACE_HEADER_KEY, s)]) = true →
        (_determine_parent_context O env lambda_event).1
          = O.xrayExtract [(TRACE_HEADER_KEY, s)]) ∧
    ((∀ s, env "_X_AMZN_TRACE_ID" = some s → s ≠ "" →
        O.currentSpanSampled (O.xrayExtract [(TRACE_HEADER_KEY, s)]) = false) →
        (_determine_parent_context O env lambda_event).1
          = O.textmapExtract (headersOrEmpty lambda_event)) := by
  constructor
  · intro s hs hne hsamp
    unfold _determine_parent_context
    rw [hs]
    simp [hne, hsamp, hmono _ hsamp]
  · intro hno
    unfold _determine_parent_context
    cases hs : env "_X_AMZN_TRACE_ID" with
    | none => exact default_extractor_fst O lambda_event
    | some s =>
        by_cases hne : s = ""
        · simp only [hne, if_true]
          exact default_extractor_fst O lambda_event
        · simp only [hne, if_false, hno s hs hne, Bool.and_false, if_false]
          exact default_extractor_fst O lambda_event

/-- C1 witness: with a sampled X-Ray environment value and an event
that is not even subscriptable, the resolved parent is the X-Ray
extraction (`true` in the concrete library model). -/
theorem parent_context_sampled_wins_witness :
    (_determine_parent_context obool envSampled PyVal.nonMapping).1 = true :=
  (parent_context_sampled_wins obool envSampled PyVal.nonMapping (fun _ h => h)).1
    "Root=1-5759e988-bd862e3fe1be46a994272793;Parent=53995c3f42cd8ad8;Sampled=1"
    rfl (by decide) rfl

/-- C4: when the subscript `lambda_event["headers"]` raises (the event
is not subscriptable, or lacks the key), the default extractor catches
the exception, logs one debug-level diagnostic, and extracts from the
empty carrier; no exception reaches the caller (the embedded function
is total and returns the fallback value). -/
theorem default_extractor_no_raise {Ctx : Type} (O : OtelEnv Ctx)
    (lambda_event : PyVal) (err : PyErr)
    (h : eventSubscript lambda_event "headers" = .error err) :
    _default_event_context_extractor O lambda_event
      = (O.textmapExtract ([] : Headers), [LogRec.debug]) := by
  unfold _default_event_context_extractor
  rw [h]

/-- C4 witness: a non-subscriptable event takes the fallback path. -/
theorem default_extractor_no_raise_witness :
    _default_event_context_extractor obool PyVal.nonMapping = (false, [LogRec.debug]) :=
  default_extractor_no_raise obool PyVal.nonMapping PyErr.typeError rfl

/-- C5 counterexample: with the flush-timeout variable set to `"abc"`,
the module-load computation `int(os.environ.get(..., 30000))` raises
`ValueError`; it does not evaluate to the default `30000` as the claim
states for unparseable values. -/
theorem flush_timeout_unparseable_raises :
    flush_timeout_init envUnparseable = .error .valueError ∧
    flush_timeout_init envUnparseable ≠ .ok 30000 := by
  constructor
  · rfl
  · intro h
    rw [show flush_timeout_init envUnparseable = .error .valueError from rfl] at h
    exact Except.noConfusion h

/-- C5 as amended: the timeout value computed once at module load is
`30000` when the variable is unset; when the variable is set, the
computation is `int` applied to its value, which yields the parsed
integer on a parseable string and raises `ValueError` (failing the
module load) on an unparseable one. -/
theorem flush_timeout_init_spec (env : String → Option String) :
    (env "OTEL_INSTRUMENTATION_AWS_LAMBDA_FLUSH_TIMEOUT" = none →
      flush_timeout_init env = .ok 30000) ∧
    (∀ s n, env "OTEL_INSTRUMENTATION_AWS_LAMBDA_FLUSH_TIMEOUT" = some s →
      pyIntOfString s = .ok n → flush_timeout_init env = .ok n) ∧
    (∀ s, env "OTEL_INSTRUMENTATION_AWS_LAMBDA_FLUSH_TIMEOUT" = some s →
      pyIntOfString s = .error .valueError →
      flush_timeout_init env = .error .valueError) := by
  refine ⟨?_, ?_, ?_⟩
  · intro h; unfold flush_timeout_init; rw [h]
  · intro s n hs hn; unfold flush_timeout_init; rw [hs]; exact hn
  · intro s hs herr; unfold flush_timeout_init; rw [hs]; exact herr

/-- C5 witness: an unset variable yields `30000`, and the value
`"5000"` parses to the timeout `5000`. -/
theorem flush_timeout_init_spec_witness :
    flush_timeout_init envNone = .ok 30000 ∧ flush_timeout_init envFive = .ok 5000 :=
  ⟨(flush_timeout_init_spec envNone).1 rfl,
   (flush_timeout_init_spec envFive).2.1 "5000" 5000 rfl (by decide)⟩

/-- C2 counterexample: when the handler raises, the force-flush call is
skipped entirely — the flush statement sits after the `with` block, not
in a `finally`, so the exception propagates past it. Here the handler
was called (the handler-call event is in the list) and raised, yet no
flush event exists, refuting the claim that flush runs once on the
exception path as well. -/
theorem flush_skipped_on_handler_exception :
    TEvent.handlerCall [headerEvent, goodCtx] () ∈ (otel_wrapper Wraise [headerEvent, goodCtx] ()).2 ∧
    (otel_wrapper Wraise [headerEvent, goodCtx] ()).1
      = .error (.userError "RuntimeError" "boom") ∧
    (otel_wrapper Wraise [headerEvent, goodCtx] ()).2.filter isFlush = [] := by
  refine ⟨?_, rfl, rfl⟩
  decide

/-- C2 as amended: on the normal-return path the tracer provider is
flushed exactly once, after the handler call, with the configured
timeout as argument (the flush event is the last event, so it follows
the handler-call event); when the wrapper propagates an exception —
including one raised by the handler — no flush call occurs at all. -/
theorem force_flush_once_on_normal_return {Ctx K Res : Type}
    (W : WrapEnv Ctx K Res) (args : List PyVal) (kwargs : K) :
    (∀ r : Res, (otel_wrapper W args kwargs).1 = .ok r →
        (otel_wrapper W args kwargs).2.filter isFlush = [.flushCall W.flush_timeout] ∧
        (otel_wrapper W args kwargs).2.getLast? = some (.flushCall W.flush_timeout) ∧
        TEvent.handlerCall args kwargs ∈ (otel_wrapper W args kwargs).2) ∧
    (∀ e : PyErr, (otel_wrapper W args kwargs).1 = .error e →
        (otel_wrapper W args kwargs).2.filter isFlush = []) := by
  constructor
  · intro r hr
    cases h0 : args[0]? with
    | none =>
        rw [otel_wrapper_no_event_arg W args kwargs h0] at hr
        exact absurd hr (by simp)
    | some ev =>
        rcases hb : spanBody W args kwargs with ⟨bres, bevs⟩
        cases bres with
        | error e =>
            rw [otel_wrapper_body_error W args kwargs ev e bevs h0 hb] at hr
            exact absurd hr (by simp)
        | ok r0 =>
            have hbf : bevs.filter isFlush = [] := by
              have hnf := spanBody_no_flush W args kwargs
              rw [hb] at hnf
              exact hnf
            have hm := spanBody_ok_handler_called W args kwargs r0 bevs hb
            rw [otel_wrapper_body_ok W args kwargs ev r0 bevs h0 hb]
            refine ⟨?_, List.getLast?_concat _, by simp [hm]⟩
            simp [List.filter_append, filter_debug_map isFlush rfl, isFlush, hbf]
  · intro e he
    cases h0 : args[0]? with
    | none => rw [otel_wrapper_no_event_arg W args kwargs h0]; rfl
    | some ev =>
        rcases hb : spanBody W args kwargs with ⟨bres, bevs⟩
        cases bres with
        | ok r =>
            rw [otel_wrapper_body_ok W args kwargs ev r bevs h0 hb] at he
            exact absurd he (by simp)
        | error e0 =>
            have hbf : bevs.filter isFlush = [] := by
              have hnf := spanBody_no_flush W args kwargs
              rw [hb] at hnf
              exact hnf
            rw [otel_wrapper_body_error W args kwargs ev e0 bevs h0 hb]
            simp [List.filter_append, filter_debug_map isFlush rfl, isFlush, hbf]

/-- C2 witness: the two paths at concrete inputs — a returning handler
yields exactly one trailing flush event with timeout `30000` and a
handler-call event; a raising handler yields no flush event. -/
theorem force_flush_once_on_normal_return_witness :
    ((otel_wrapper Wbase [headerEvent, goodCtx] ()).2.filter isFlush
        = [.flushCall 30000] ∧
     (otel_wrapper Wbase [headerEvent, goodCtx] ()).2.getLast?
        = some (.flushCall 30000) ∧
     TEvent.handlerCall [headerEvent, goodCtx] ()
        ∈ (otel_wrapper Wbase [headerEvent, goodCtx] ()).2) ∧
    (otel_wrapper Wraise [headerEvent, goodCtx] ()).2.filter isFlush = [] :=
  ⟨(force_flush_once_on_normal_return Wbase [headerEvent, goodCtx] ()).1 42 rfl,
   (force_flush_once_on_normal_return Wraise [headerEvent, goodCtx] ()).2
     (.userError "RuntimeError" "boom") rfl⟩

/-- C3 counterexample: with zero positional arguments (for a handler
that accepts any argument list), the undecorated handler returns `42`
while the decorated one raises `IndexError` in the wrapper itself, so
the decorated handler is not identical to the undecorated one for every
argument list. -/
theorem wrapper_not_transparent_on_empty_args :
    Wbase.handler [] () = .ok 42 ∧
    (otel_wrapper Wbase [] ()).1 = .error .indexError ∧
    (otel_wrapper Wbase [] ()).1 ≠ Wbase.handler [] () := by
  refine ⟨rfl, rfl, by decide⟩

/-- C3 as amended: for every call with at least two positional
arguments whose second argument exposes the request-id and ARN fields,
the wrapper invokes the original handler with the original positional
and keyword arguments, passes its return value through unchanged, and
propagates a raised exception unchanged (same `Except` outcome, hence
same exception value — type and message included). -/
theorem wrapper_transparent_on_wellformed_calls {Ctx K Res : Type}
    (W : WrapEnv Ctx K Res) (args : List PyVal) (kwargs : K)
    (ev c : PyVal) (rid arn : String)
    (h0 : args[0]? = some ev) (h1 : args[1]? = some c)
    (hrid : getattrRequestId c = .ok rid) (harn : getattrFunctionArn c = .ok arn) :
    (otel_wrapper W args kwargs).1 = W.handler args kwargs ∧
    TEvent.handlerCall args kwargs ∈ (otel_wrapper W args kwargs).2 := by
  cases hrec : W.recording with
  | false =>
      exact wrapper_passthrough_aux W args kwargs ev [.handlerCall args kwargs] h0
        (spanBody_not_recording W args kwargs hrec) (by simp)
  | true =>
      exact wrapper_passthrough_aux W args kwargs ev _ h0
        (spanBody_recording W args kwargs c rid arn hrec h1 hrid harn) (by simp)

/-- C3 witness: a well-formed two-argument call passes the handler
result `42` through and calls the handler with the original
arguments. -/
theorem wrapper_transparent_on_wellformed_calls_witness :
    (otel_wrapper Wbase [headerEvent, goodCtx] ()).1 = Wbase.handler [headerEvent, goodCtx] () ∧
    TEvent.handlerCall [headerEvent, goodCtx] ()
      ∈ (otel_wrapper Wbase [headerEvent, goodCtx] ()).2 :=
  wrapper_transparent_on_wellformed_calls Wbase [headerEvent, goodCtx] ()
    headerEvent goodCtx "req-1" "arn:aws:lambda:us-east-1:0:function:f"
    rfl rfl rfl rfl

/-- C6 counterexample: `orig_handler_name` is computed inside the
closure, on every call, from the handler object's current `__module__`
and `__name__`. Two invocations of the same decorated function whose
`__name__` was rebound from `"f"` to `"g"` between the calls produce
different span names, so the name is neither computed once at
decoration time nor identical across repeated invocations in general. -/
theorem span_name_read_at_call_time :
    spanNameOf (otel_wrapper Wbase [headerEvent, goodCtx] ()).2 = some "mymod.f" ∧
    spanNameOf (otel_wrapper Wg [headerEvent, goodCtx] ()).2 = some "mymod.g" ∧
    Wg = { Wbase with handlerName := "g" } ∧
    ("mymod.f" : String) ≠ "mymod.g" :=
  ⟨rfl, rfl, rfl, by decide⟩

/-- C6 as amended: on every call that reaches span creation, the span
name is `"<module>.<name>"` of the wrapped handler as its attributes
read at that call; since the name is a function of those two attributes
only, it is identical across invocations while they are unchanged (the
usual case), but it is recomputed on each call rather than cached at
decoration time. -/
theorem span_name_module_dot_name {Ctx K Res : Type}
    (W : WrapEnv Ctx K Res) (args : List PyVal) (kwargs : K) (ev : PyVal)
    (h0 : args[0]? = some ev) :
    spanNameOf (otel_wrapper W args kwargs).2
      = some (W.module ++ "." ++ W.handlerName) := by
  rcases hb : spanBody W args kwargs with ⟨bres, bevs⟩
  cases bres with
  | error e =>
      rw [otel_wrapper_body_error W args kwargs ev e bevs h0 hb,
        spanNameOf_debug_map]
      simp [spanNameOf]
  | ok r =>
      rw [otel_wrapper_body_ok W args kwargs ev r bevs h0 hb,
        List.append_assoc, spanNameOf_debug_map]
      simp [spanNameOf]

/-- C6 witness: a concrete call yields the span name `"mymod.f"`. -/
theorem span_name_module_dot_name_witness :
    spanNameOf (otel_wrapper Wraise [headerEvent, goodCtx] ()).2 = some "mymod.f" :=
  span_name_module_dot_name Wraise [headerEvent, goodCtx] () headerEvent rfl

/-- C7: for a call whose context exposes both fields, if the span is
recording then the events before the handler call contain exactly four
attribute-setting calls, in order, with the literal keys
`faas.execution` (the request id), `faas.id` (the function ARN),
`faas.name` and `faas.version` (the two environment variables), and no
attribute-setting call follows the handler call; if the span is not
recording, no attribute-setting call occurs at all. -/
theorem faas_attributes_exact {Ctx K Res : Type}
    (W : WrapEnv Ctx K Res) (args : List PyVal) (kwargs : K)
    (ev c : PyVal) (rid arn : String)
    (h0 : args[0]? = some ev) (h1 : args[1]? = some c)
    (hrid : getattrRequestId c = .ok rid) (harn : getattrFunctionArn c = .ok arn) :
    (W.recording = true →
      ((otel_wrapper W args kwargs).2.takeWhile (fun e => !(isHandlerCall e))).filter isSetAttr
          = [.setAttr "faas.execution" (.str rid),
             .setAttr "faas.id" (.str arn),
             .setAttr "faas.name" (attrOfEnv (W.env "AWS_LAMBDA_FUNCTION_NAME")),
             .setAttr "faas.version" (attrOfEnv (W.env "AWS_LAMBDA_FUNCTION_VERSION"))] ∧
      ((otel_wrapper W args kwargs).2.dropWhile (fun e => !(isHandlerCall e))).filter isSetAttr
          = []) ∧
    (W.recording = false →
      (otel_wrapper W args kwargs).2.filter isSetAttr = []) := by
  constructor
  · intro hrec
    have hb := spanBody_recording W args kwargs c rid arn hrec h1 hrid harn
    cases hh : W.handler args kwargs with
    | ok r =>
        rw [hh] at hb
        rw [otel_wrapper_body_ok W args kwargs ev r _ h0 hb]
        constructor
        · rw [List.append_assoc, takeWhile_debug_map _ rfl]
          simp [List.filter_append, filter_debug_map isSetAttr rfl, isSetAttr,
            isHandlerCall, List.takeWhile_cons]
        · rw [List.append_assoc, dropWhile_debug_map _ rfl]
          simp [isSetAttr, isHandlerCall, List.dropWhile_cons]
    | error e =>
        rw [hh] at hb
        rw [otel_wrapper_body_error W args kwargs ev e _ h0 hb]
        constructor
        · rw [takeWhile_debug_map _ rfl]
          simp [List.filter_append, filter_debug_map isSetAttr rfl, isSetAttr,
            isHandlerCall, List.takeWhile_cons]
        · rw [dropWhile_debug_map _ rfl]
          simp [isSetAttr, isHandlerCall, List.dropWhile_cons]
  · intro hrec
    have hb := spanBody_not_recording W args kwargs hrec
    cases hh : W.handler args kwargs with
    | ok r =>
        rw [hh] at hb
        rw [otel_wrapper_body_ok W args kwargs ev r _ h0 hb]
        simp [List.filter_append, filter_debug_map isSetAttr rfl, isSetAttr]
    | error e =>
        rw [hh] at hb
        rw [otel_wrapper_body_error W args kwargs ev e _ h0 hb]
        simp [List.filter_append, filter_debug_map isSetAttr rfl, isSetAttr]

/-- C7 witness: at a concrete recording call the four attribute events
appear before the handler call with the exact keys and values, and at a
concrete non-recording call no attribute event occurs. -/
theorem faas_attributes_exact_witness :
    ((otel_wrapper Wbase [headerEvent, goodCtx] ()).2.takeWhile
        (fun e => !(isHandlerCall e))).filter isSetAttr
      = [.setAttr "faas.execution" (.str "req-1"),
         .setAttr "faas.id" (.str "arn:aws:lambda:us-east-1:0:function:f"),
         .setAttr "faas.name" AttrVal.pynone,
         .setAttr "faas.version" AttrVal.pynone] ∧
    (otel_wrapper Wnorec [headerEvent, goodCtx] ()).2.filter isSetAttr = [] :=
  ⟨((faas_attributes_exact Wbase [headerEvent, goodCtx] () headerEvent goodCtx
      "req-1" "arn:aws:lambda:us-east-1:0:function:f" rfl rfl rfl rfl).1 rfl).1,
   (faas_attributes_exact Wnorec [headerEvent, goodCtx] () headerEvent goodCtx
      "req-1" "arn:aws:lambda:us-east-1:0:function:f" rfl rfl rfl rfl).2 rfl⟩

/-- C8 counterexample: with a recording span and a context object
exposing neither expected field, the attribute read raises
`AttributeError`, the invocation aborts, and the handler is never
invoked — access is not guarded, refuting the claim that a missing
field only skips that attribute. -/
theorem context_access_unguarded_aborts :
    (otel_wrapper Wbase [headerEvent, badCtx] ()).1 = .error .attributeError ∧
    (otel_wrapper Wbase [headerEvent, badCtx] ()).2.filter isHandlerCall = [] :=
  ⟨rfl, rfl⟩

/-- C8 as amended: attribute access on the context is unguarded. With a
recording span, a context lacking `aws_request_id` makes the first
attribute read raise `AttributeError`; the invocation aborts with that
error before any attribute is set and before the handler is invoked
(the span is still ended by the scope exit, and no flush happens). -/
theorem missing_request_id_aborts_invocation {Ctx K Res : Type}
    (W : WrapEnv Ctx K Res) (args : List PyVal) (kwargs : K) (ev c : PyVal)
    (hrec : W.recording = true) (h0 : args[0]? = some ev) (h1 : args[1]? = some c)
    (hrid : getattrRequestId c = .error .attributeError) :
    (otel_wrapper W args kwargs).1 = .error .attributeError ∧
    (otel_wrapper W args kwargs).2.filter isHandlerCall = [] ∧
    (otel_wrapper W args kwargs).2.filter isSetAttr = [] ∧
    TEvent.spanEnd ∈ (otel_wrapper W args kwargs).2 ∧
    (otel_wrapper W args kwargs).2.filter isFlush = [] := by
  have hb := spanBody_no_request_id W args kwargs c .attributeError hrec h1 hrid
  rw [otel_wrapper_body_error W args kwargs ev .attributeError [] h0 hb]
  refine ⟨rfl, ?_, ?_, by simp, ?_⟩
  · simp [List.filter_append, filter_debug_map isHandlerCall rfl, isHandlerCall]
  · simp [List.filter_append, filter_debug_map isSetAttr rfl, isSetAttr]
  · simp [List.filter_append, filter_debug_map isFlush rfl, isFlush]

/-- C8 witness: the amended behavior at a concrete input. -/
theorem missing_request_id_aborts_invocation_witness :
    (otel_wrapper Wbase [headerEvent, badCtx] ()).1 = .error .attributeError ∧
    (otel_wrapper Wbase [headerEvent, badCtx] ()).2.filter isHandlerCall = [] ∧
    (otel_wrapper Wbase [headerEvent, badCtx] ()).2.filter isSetAttr = [] ∧
    TEvent.spanEnd ∈ (otel_wrapper Wbase [headerEvent, badCtx] ()).2 ∧
    (otel_wrapper Wbase [headerEvent, badCtx] ()).2.filter isFlush = [] :=
  missing_request_id_aborts_invocation Wbase [headerEvent, badCtx] ()
    headerEvent badCtx rfl rfl rfl rfl

/-- C9 counterexample: with `AWS_LAMBDA_FUNCTION_NAME` unset, the value
handed to `set_attribute` for `faas.name` is the source-language `None`
(returned by `os.environ.get` with no default), not a string — refuting
the claim that the supplied value is still a string when the variable
is unset. -/
theorem faas_name_none_when_env_unset :
    TEvent.setAttr "faas.name" AttrVal.pynone
      ∈ (otel_wrapper Wbase [headerEvent, goodCtx] ()).2 ∧
    AttrVal.isString AttrVal.pynone = false :=
  ⟨by decide, rfl⟩

/-- C9 as amended: the values of `faas.execution` and `faas.id` are the
context's string fields; the values of `faas.name` and `faas.version`
are the respective environment strings when set, but the non-string
`None` when the variable is unset. -/
theorem faas_env_attrs_none_when_unset {Ctx K Res : Type}
    (W : WrapEnv Ctx K Res) (args : List PyVal) (kwargs : K)
    (ev c : PyVal) (rid arn : String)
    (hrec : W.recording = true) (h0 : args[0]? = some ev) (h1 : args[1]? = some c)
    (hrid : getattrRequestId c = .ok rid) (harn : getattrFunctionArn c = .ok arn)
    (hname : W.env "AWS_LAMBDA_FUNCTION_NAME" = none)
    (hver : W.env "AWS_LAMBDA_FUNCTION_VERSION" = none) :
    TEvent.setAttr "faas.name" AttrVal.pynone ∈ (otel_wrapper W args kwargs).2 ∧
    TEvent.setAttr "faas.version" AttrVal.pynone ∈ (otel_wrapper W args kwargs).2 ∧
    TEvent.setAttr "faas.execution" (.str rid) ∈ (otel_wrapper W args kwargs).2 ∧
    TEvent.setAttr "faas.id" (.str arn) ∈ (otel_wrapper W args kwargs).2 := by
  have hb := spanBody_recording W args kwargs c rid arn hrec h1 hrid harn
  rw [hname, hver] at hb
  cases hh : W.handler args kwargs with
  | ok r =>
      rw [hh] at hb
      rw [otel_wrapper_body_ok W args kwargs ev r _ h0 hb]
      refine ⟨?_, ?_, ?_, ?_⟩ <;> simp [attrOfEnv]
  | error e =>
      rw [hh] at hb
      rw [otel_wrapper_body_error W args kwargs ev e _ h0 hb]
      refine ⟨?_, ?_, ?_, ?_⟩ <;> simp [attrOfEnv]

/-- C9 witness: the amended behavior at a concrete input with both
variables unset. -/
theorem faas_env_attrs_none_when_unset_witness :
    TEvent.setAttr "faas.name" AttrVal.pynone
      ∈ (otel_wrapper Wraise [headerEvent, goodCtx] ()).2 ∧
    TEvent.setAttr "faas.version" AttrVal.pynone
      ∈ (otel_wrapper Wraise [headerEvent, goodCtx] ()).2 ∧
    TEvent.setAttr "faas.execution" (.str "req-1")
      ∈ (otel_wrapper Wraise [headerEvent, goodCtx] ()).2 ∧
    TEvent.setAttr "faas.id" (.str "arn:aws:lambda:us-east-1:0:function:f")
      ∈ (otel_wrapper Wraise [headerEvent, goodCtx] ()).2 :=
  faas_env_attrs_none_when_unset Wraise [headerEvent, goodCtx] ()
    headerEvent goodCtx "req-1" "arn:aws:lambda:us-east-1:0:function:f"
    rfl rfl rfl rfl rfl rfl rfl

/-- C10: with zero positional arguments the wrapper itself raises
`IndexError` reading `args[0]`, before any span is created and before
the handler could run (the event list is empty); with exactly one
positional argument and a recording span, reading `args[1]` raises
`IndexError` before the handler is invoked and before any attribute is
set (the span was already created and is ended by the scope exit). -/
theorem missing_positional_args_index_error {Ctx K Res : Type}
    (W : WrapEnv Ctx K Res) (kwargs : K) (a : PyVal) (hrec : W.recording = true) :
    otel_wrapper W [] kwargs = (.error .indexError, []) ∧
    ((otel_wrapper W [a] kwargs).1 = .error .indexError ∧
     (otel_wrapper W [a] kwargs).2.filter isHandlerCall = [] ∧
     (otel_wrapper W [a] kwargs).2.filter isSetAttr = []) := by
  refine ⟨otel_wrapper_no_event_arg W [] kwargs rfl, ?_⟩
  have hb := spanBody_no_ctx_arg W [a] kwargs hrec rfl
  rw [otel_wrapper_body_error W [a] kwargs a .indexError [] rfl hb]
  refine ⟨rfl, ?_, ?_⟩
  · simp [List.filter_append, filter_debug_map isHandlerCall rfl, isHandlerCall]
  · simp [List.filter_append, filter_debug_map isSetAttr rfl, isSetAttr]

/-- C10 witness: the two degenerate argument lists at a concrete
state. -/
theorem missing_positional_args_index_error_witness :
    otel_wrapper Wbase [] () = (.error .indexError, []) ∧
    ((otel_wrapper Wbase [headerEvent] ()).1 = .error .indexError ∧
     (otel_wrapper Wbase [headerEvent] ()).2.filter isHandlerCall = [] ∧
     (otel_wrapper Wbase [headerEvent] ()).2.filter isSetAttr = []) :=
  missing_positional_args_index_error Wbase () headerEvent rfl

end OtelLambda
